import Mathlib

/-!
Shallow embedding of the ZenianResearchBot scraper pipeline orchestrator
(src/scraper/main.py, src/scraper/src/utils.py, src/scraper/src/scraper.py,
src/scraper/src/pinecone_client.py, src/scraper/src/ollama_service.py).

External collaborators (playwright page loads, the Ollama HTTP service, the
local sentence-transformer embedder, the Pinecone network API, the system
clock) are modelled as explicit inputs: each document carries a record of
how its external calls behave, and the vector store is explicit state.
Counters are Nat (Python ints, unbounded).
-/

namespace Zenian

/-- Configuration defaults from src/scraper/config.py (env-overridable; the
theorems quantify over the configurable values and these defaults serve as
concrete instances). -/
def Config.CONCURRENCY_LIMIT : Nat := 3

/-- Default EMBEDDING_DIMENSION from src/scraper/config.py. -/
def Config.EMBEDDING_DIMENSION : Nat := 384

/-- The in-process counter dictionary created in `ArticleProcessor.__init__`
(src/scraper/main.py lines 22-31) and also the default `existing_stats`
dictionary of `update_stats` (src/scraper/src/utils.py lines 74-84).
`last_updated` is a wall-clock timestamp, external to the model. -/
structure Stats where
  total_processed : Nat
  successful : Nat
  failed : Nat
  scraping_failed : Nat
  summarization_failed : Nat
  embedding_failed : Nat
  pinecone_failed : Nat
  ollama_connection_failed : Nat
deriving DecidableEq, Repr

/-- The all-zero counters of `ArticleProcessor.__init__`. -/
def initStats : Stats :=
  ⟨0, 0, 0, 0, 0, 0, 0, 0⟩

/-- Pointwise addition: the `existing_stats[key] += value` loop of
`update_stats` (utils.py lines 86-90), restricted to the counter keys that
are present in both dictionaries. -/
def addStats (a b : Stats) : Stats :=
  ⟨a.total_processed + b.total_processed,
   a.successful + b.successful,
   a.failed + b.failed,
   a.scraping_failed + b.scraping_failed,
   a.summarization_failed + b.summarization_failed,
   a.embedding_failed + b.embedding_failed,
   a.pinecone_failed + b.pinecone_failed,
   a.ollama_connection_failed + b.ollama_connection_failed⟩

/-- `update_stats` (src/scraper/src/utils.py lines 67-99): read the stats
file if present, else start from the all-zero defaults; add the passed
dictionary key-wise; write the result back. `existing` is the file content
(`none` = file absent), `delta` the dictionary passed by the caller. -/
def update_stats (existing : Option Stats) (delta : Stats) : Stats :=
  addStats (existing.getD initStats) delta

/-- `create_unique_id` (src/scraper/src/utils.py lines 111-120):
`f"article_{idx}_{hashlib.sha256(url.encode()).hexdigest()[:8]}"`.
`sha256hex` abstracts the external `hashlib` digest (a fixed pure function
of the url); the model takes it as an explicit parameter and every theorem
quantifies over it. -/
def create_unique_id (sha256hex : String → String) (idx : Nat) (url : String) : String :=
  "article_" ++ toString idx ++ "_" ++ (sha256hex url).take 8

/-- Metadata stored with a vector (pinecone_client.py lines 65-70). -/
structure VectorMeta where
  link : String
  summary : String
  timestamp : String
  title : String
deriving DecidableEq, Repr

/-- One stored Pinecone record: id, values, metadata. Vector components are
opaque numbers; only the length (dimension) is ever inspected. -/
structure VectorData where
  values : List Int
  metadata : VectorMeta
deriving DecidableEq, Repr

/-- The Pinecone index contents: an association of ids to records. -/
abbrev PineconeIndex := List (String × VectorData)

/-- `self.index.fetch(ids=[unique_id])` restricted to one id. -/
def fetchVector (st : PineconeIndex) (uid : String) : Option VectorData :=
  (st.find? (fun e => e.1 = uid)).map (fun e => e.2)

/-- `check_article_exists` (pinecone_client.py lines 38-48): fetch the id
and report whether a (non-empty) record is present. -/
def check_article_exists (st : PineconeIndex) (uid : String) : Bool :=
  (fetchVector st uid).isSome

/-- The dictionary returned by `store_article_embedding`:
`{"success": ..., ...}`. -/
structure StoreResult where
  success : Bool
  info : String
deriving DecidableEq, Repr

/-- The `embedding_data` dictionary produced by `create_embeddings`
(ollama_service.py lines 130-140). -/
structure EmbeddingData where
  embeddings : List Int
  metadata : VectorMeta
deriving DecidableEq, Repr

/-- Output of one persist-stage call: the result dictionary, the index
contents afterwards, and the number of upsert calls performed (0 or 1). -/
structure StoreStep where
  result : StoreResult
  index : PineconeIndex
  upserts : Nat
deriving DecidableEq, Repr

/-- `store_article_embedding` (src/scraper/src/pinecone_client.py lines
50-78): derive the unique id; if it already exists, return success without
upserting (dedup gate); if the embedding length differs from the configured
dimension, return failure; otherwise upsert. `upsert_ok` models whether the
external `index.upsert` network call succeeds (its exception is caught and
turned into a failure dictionary, lines 76-78). -/
def store_article_embedding (sha256hex : String → String) (dim : Nat)
    (st : PineconeIndex) (ed : EmbeddingData) (article_idx : Nat)
    (article_url : String) (upsert_ok : Bool) : StoreStep :=
  let uid := create_unique_id sha256hex article_idx article_url
  if check_article_exists st uid then
    ⟨⟨true, uid⟩, st, 0⟩
  else if ed.embeddings.length ≠ dim then
    ⟨⟨false, "Embedding dimension mismatch"⟩, st, 0⟩
  else if upsert_ok then
    ⟨⟨true, uid⟩, (uid, ⟨ed.embeddings, ed.metadata⟩) :: st, 1⟩
  else
    ⟨⟨false, "upsert error"⟩, st, 0⟩

/-- The behaviour of the external services for one document: whether the
scrape returns `success: True` (scraper.py), whether `summarize_article`
returns a (truthy) dictionary, what `create_embeddings` returns (`none` =
falsy result), and whether the Pinecone upsert call succeeds. `metadata`
collects the summary/link/timestamp/title strings that end up in the
stored record. -/
structure DocEnv where
  url : String
  scrape_ok : Bool
  summarize_ok : Bool
  embed_result : Option (List Int)
  upsert_ok : Bool
  metadata : VectorMeta
deriving DecidableEq, Repr

/-- Output of one document pipeline: the boolean returned by
`process_single_article`, the updated counters, the index contents, and
the number of upserts performed. -/
structure PipeOut where
  ok : Bool
  stats : Stats
  index : PineconeIndex
  upserts : Nat
deriving DecidableEq, Repr

/-- `process_single_article` (src/scraper/main.py lines 57-93): bump
`total_processed`, then run scrape → summarize → embed → persist,
short-circuiting on the first failure and charging it to that stage's
counter together with the overall `failed` counter; on success bump
`successful`. -/
def process_single_article (sha256hex : String → String) (dim : Nat)
    (env : DocEnv) (idx : Nat) (stats : Stats) (st : PineconeIndex) : PipeOut :=
  let stats := { stats with total_processed := stats.total_processed + 1 }
  if ¬ env.scrape_ok then
    ⟨false, { stats with scraping_failed := stats.scraping_failed + 1,
                         failed := stats.failed + 1 }, st, 0⟩
  else if ¬ env.summarize_ok then
    ⟨false, { stats with summarization_failed := stats.summarization_failed + 1,
                         failed := stats.failed + 1 }, st, 0⟩
  else
    match env.embed_result with
    | none =>
        ⟨false, { stats with embedding_failed := stats.embedding_failed + 1,
                             failed := stats.failed + 1 }, st, 0⟩
    | some emb =>
        let step := store_article_embedding sha256hex dim st ⟨emb, env.metadata⟩
          idx env.url env.upsert_ok
        if step.result.success then
          ⟨true, { stats with successful := stats.successful + 1 },
           step.index, step.upserts⟩
        else
          ⟨false, { stats with pinecone_failed := stats.pinecone_failed + 1,
                               failed := stats.failed + 1 },
           step.index, step.upserts⟩

/-- Output of one batch: counters, index contents, upsert count. -/
structure BatchOut where
  stats : Stats
  index : PineconeIndex
  upserts : Nat
deriving DecidableEq, Repr

/-- `process_articles_batch` (main.py lines 95-99): enumerate the page's
documents from `start_idx` and run each through the pipeline. The counter
increments of concurrent tasks commute (each task adds 1 to fixed keys in
the cooperative event loop), and ids within one page are distinct indices,
so the fold order is observationally the completion order. -/
def process_articles_batch (sha256hex : String → String) (dim : Nat)
    (docs : List DocEnv) (start_idx : Nat) (stats : Stats)
    (st : PineconeIndex) : BatchOut :=
  match docs with
  | [] => ⟨stats, st, 0⟩
  | d :: rest =>
      let out := process_single_article sha256hex dim d start_idx stats st
      let tail := process_articles_batch sha256hex dim rest (start_idx + 1)
        out.stats out.index
      ⟨tail.stats, tail.index, out.upserts + tail.upserts⟩

/-- The orchestrator state of `main` (main.py lines 119-208): the loop
variables `page_num` and `article_global_index`, the in-process counters,
and the durable artefacts (vector store, stats file content, checkpoint
file content). -/
structure DriverState where
  page_num : Nat
  article_global_index : Nat
  stats : Stats
  index : PineconeIndex
  persisted : Option Stats
  checkpoint : Option (Nat × Nat)
deriving DecidableEq, Repr

/-- Checkpoint load at startup (main.py lines 129-142): file present gives
`(page_num, article_idx)` with per-key defaults 1; file absent or
unreadable gives `(1, 1)`. Returns (start_page, article_global_index). -/
def loadCheckpoint (cp : Option (Nat × Nat)) : Nat × Nat :=
  match cp with
  | some pi => pi
  | none => (1, 1)

/-- Fresh driver state at the top of `main`'s loop, from the durable
artefacts left by earlier runs. -/
def startState (persisted : Option Stats) (st : PineconeIndex)
    (cp : Option (Nat × Nat)) : DriverState :=
  ⟨(loadCheckpoint cp).1, (loadCheckpoint cp).2, initStats, st, persisted, cp⟩

/-- One iteration of `main`'s page loop on a non-empty page (main.py lines
147-182): process the batch starting at the current global index, advance
the global index by the page size, write the checkpoint
`save_checkpoint(page_num, article_global_index)`, flush
`update_stats(processor.stats)` — note: the cumulative in-process counters,
not a per-page delta — and move to the next page number. -/
def driverProcessPage (sha256hex : String → String) (dim : Nat)
    (docs : List DocEnv) (s : DriverState) : DriverState :=
  let out := process_articles_batch sha256hex dim docs s.article_global_index
    s.stats s.index
  let idx := s.article_global_index + docs.length
  ⟨s.page_num + 1, idx, out.stats, out.index,
   some (update_stats s.persisted out.stats),
   some (s.page_num, idx)⟩

/-- The page loop over a given list of (non-empty) fetched pages. -/
def driverRun (sha256hex : String → String) (dim : Nat)
    (pages : List (List DocEnv)) (s : DriverState) : DriverState :=
  pages.foldl (fun acc docs => driverProcessPage sha256hex dim docs acc) s

/-- The checkpoint written by the interrupt/fatal-error handlers (main.py
lines 184-191): `save_checkpoint(page_num, article_global_index)` with the
loop variables as they stand when the interruption strikes. During page
P's batch these are `page_num = P` (the in-flight page) and the index as
of the last completed page. -/
def interruptCheckpoint (s : DriverState) : Nat × Nat :=
  (s.page_num, s.article_global_index)

/-- `get_article_links_from_search` (src/scraper/src/scraper.py lines
136-163): fetch the search page and collect hrefs
(`fetched = .ok links`), then `list(set(article_links))[:20]`; any raised
error is caught and an empty list returned (lines 161-163). `setList`
abstracts Python's `list(set(·))`, whose enumeration order is
implementation-defined; theorems assume of it only set semantics
(duplicate-free output, same membership). -/
def get_article_links_from_search (setList : List String → List String)
    (fetched : Except String (List String)) : List String :=
  match fetched with
  | .error _ => []
  | .ok links => (setList links).take 20

/-- The driver's reaction to a fetched page (main.py lines 157-160): an
empty link list terminates the run (`none`); otherwise the links form the
next batch. -/
def driverPageLinks (setList : List String → List String)
    (fetched : Except String (List String)) : Option (List String) :=
  let links := get_article_links_from_search setList fetched
  if links.isEmpty then none else some links

/-! ## Retry model (tenacity decorators)

`scrape_single_article` (scraper.py lines 66-135) is decorated with
`@retry(stop=stop_after_attempt(3), wait=wait_exponential(...))`.
tenacity re-invokes the wrapped function only when it RAISES; a normal
return — any dictionary, `success` true or false — ends the retry loop.
The whole body of `scrape_single_article` sits inside `try/except
PlaywrightTimeoutError/except Exception` clauses that convert every raised
exception into a returned `{'success': False}` dictionary, so no exception
ever reaches the decorator. (`summarize_article`, `_generate_text`,
`check_connection` and `store_article_embedding` have the same
decorator-over-catch-all shape.) -/

/-- How the external world treats one attempt at scraping a url:
the page load / extraction raises a transient exception, or it completes
but extraction yields no title, or it succeeds. -/
inductive ScrapeAttempt
  | transientError
  | noData
  | ok
deriving DecidableEq, Repr

/-- The value produced by `scrape_single_article`'s body for one attempt:
every raised exception is caught by the body's own `except` clauses
(scraper.py lines 108-115) and becomes a returned failure dictionary, so
the body never raises and never returns an exceptional outcome. -/
def scrapeAttemptBody : ScrapeAttempt → Except String StoreResult
  | .transientError => .ok ⟨false, "exception caught"⟩
  | .noData => .ok ⟨false, "No valid data extracted"⟩
  | .ok => .ok ⟨true, "scraped"⟩

/-- tenacity's retry loop with `stop_after_attempt`: invoke the attempt;
a raised exception (`.error`) triggers another attempt while attempts
remain, a normal return ends the loop. Returns the final outcome and the
number of attempts consumed. -/
def tenacityRetry (attempt : Nat → Except String StoreResult) :
    Nat → Nat → Except String StoreResult × Nat
  | 0, used => (.error "RetryError", used)
  | fuel + 1, used =>
      match attempt used with
      | .ok a => (.ok a, used + 1)
      | .error e =>
          if fuel = 0 then (.error e, used + 1)
          else tenacityRetry attempt fuel (used + 1)

/-- The decorated `scrape_single_article`: tenacity with
`stop_after_attempt(3)` wrapped around the exception-swallowing body.
`world i` is how the external fetch behaves on attempt `i`. -/
def scrape_single_article (world : Nat → ScrapeAttempt) :
    Except String StoreResult × Nat :=
  tenacityRetry (fun i => scrapeAttemptBody (world i)) 3 0

/-! ## Concurrency limiter (asyncio.Semaphore)

`ArticleProcessor.__init__` creates
`asyncio.Semaphore(Config.CONCURRENCY_LIMIT)` (main.py line 32) and
`process_single_article` runs its whole body under
`async with self.semaphore` (line 58): the permit is acquired on entry and
released by the scope's finally on every exit — normal return (success or
failure), raised exception, or task cancellation. The batch is modelled as
a transition system: each document task is pending, holding a permit, or
finished; any interleaving the event loop could schedule is a path of
`SemStep`. -/

/-- Scheduling state of one document task of a batch. -/
inductive TaskPhase
  | pending
  | holding
  | finished
deriving DecidableEq, Repr

/-- How a holding task exits its `async with` scope. -/
inductive ExitKind
  | success
  | failure
  | errored
  | cancelled
deriving DecidableEq, Repr

/-- Global scheduler state: the semaphore's free-permit count, the phase of
every task of the batch, and the total number of releases performed. -/
structure SemState where
  permits : Nat
  tasks : List TaskPhase
  releases : Nat
deriving DecidableEq, Repr

/-- Batch start: `C` free permits, all `n` document tasks pending. -/
def initSem (C n : Nat) : SemState :=
  ⟨C, List.replicate n .pending, 0⟩

/-- One scheduler step: a pending task acquires a free permit and enters
its I/O-bound body, or a holding task exits (in any of the four ways) and
the scope's finally releases its permit. -/
inductive SemStep : SemState → SemState → Prop
  | acquire (s : SemState) (i : Nat)
      (hi : s.tasks.get? i = some .pending) (hp : 0 < s.permits) :
      SemStep s ⟨s.permits - 1, s.tasks.set i .holding, s.releases⟩
  | finish (s : SemState) (i : Nat) (k : ExitKind)
      (hi : s.tasks.get? i = some .holding) :
      SemStep s ⟨s.permits + 1, s.tasks.set i .finished, s.releases + 1⟩

/-- States the event loop can reach from the batch start. -/
def SemReachable (C n : Nat) (s : SemState) : Prop :=
  Relation.ReflTransGen SemStep (initSem C n) s

/-- Number of tasks currently inside their I/O-bound stages. -/
def holdingCount (s : SemState) : Nat :=
  s.tasks.countP (fun t => t = TaskPhase.holding)

/-- Number of tasks that have finished. -/
def finishedCount (s : SemState) : Nat :=
  s.tasks.countP (fun t => t = TaskPhase.finished)

/-- Permit-accounting invariant of the semaphore system: the task list
keeps its size, free permits plus held permits equal the capacity, and the
release count equals the number of completed scopes. -/
def SemInv (C n : Nat) (s : SemState) : Prop :=
  s.tasks.length = n ∧ holdingCount s + s.permits = C ∧ s.releases = finishedCount s

/-! ## Concrete instances used in counterexamples and witnesses -/

/-- A concrete stand-in for the sha256 hex digest in closed scenarios (the
theorems about `create_unique_id` quantify over the digest function; this
one is only evaluated at concrete inputs). -/
def hashA : String → String := fun _ => "aaaaaaaa"

/-- Empty metadata record for concrete scenarios. -/
def metaA : VectorMeta :=
  ⟨"", "", "", ""⟩

/-- A document whose external calls all succeed, producing a 2-component
embedding (used with configured dimension 2 in concrete scenarios). -/
def okDoc (url : String) : DocEnv :=
  ⟨url, true, true, some [0, 0], true, metaA⟩

/-! ## Stats invariants -/

/-- Sum of the per-stage failure counters. -/
def Stats.stageFailures (s : Stats) : Nat :=
  s.scraping_failed + s.summarization_failed + s.embedding_failed + s.pinecone_failed

/-- The accounting invariant of the spec: successes plus per-stage failures
equal attempts, and the overall `failed` counter equals the per-stage sum. -/
def Stats.balanced (s : Stats) : Prop :=
  s.successful + s.stageFailures = s.total_processed ∧ s.failed = s.stageFailures

/-- The invariant lifted to the stats-file content (`none` = file absent,
which `update_stats` reads as the all-zero defaults). -/
def balancedFile (o : Option Stats) : Prop :=
  (o.getD initStats).balanced

/-- The run-end flush (main.py lines 202-208): `update_stats(final_stats)`
over the cumulative counters once more (the extra duration/time keys are
not counters and are absorbed as new keys by `update_stats`). -/
def runEndFlush (s : DriverState) : Stats :=
  update_stats s.persisted s.stats

/-! ## Theorems -/

/-- C1: the claim states that the stats flush after a page adds only that
page's deltas to the durable record. The code flushes
`update_stats(processor.stats)` with the run-cumulative in-process
counters (main.py line 170), and `update_stats` adds its argument to the
file, so every earlier page is re-added on every later flush. In a run of
two pages with one all-success document each (stats file initially
absent), the flush after page 1 persists `successful = 1`, and the flush
after page 2 adds the cumulative 2, leaving `successful = 3` in the file —
an increase of 2 where the page's delta is j = 1 — although the whole run
succeeded on only 2 documents. -/
theorem C1_flush_adds_cumulative_not_delta :
    ((driverRun hashA 2 [[okDoc "u1"]] (startState none [] none)).persisted.getD
        initStats).successful = 1 ∧
    ((driverRun hashA 2 [[okDoc "u1"], [okDoc "u2"]] (startState none [] none)).persisted.getD
        initStats).successful = 3 ∧
    (driverRun hashA 2 [[okDoc "u1"], [okDoc "u2"]] (startState none [] none)).stats.successful
      = 2 :=
  ⟨rfl, rfl, rfl⟩

/-- C2, counterexample: a document whose embedder reports success with a
3-component vector against a configured dimension of 2 is recorded with
`pinecone_failed = 1` and `embedding_failed = 0`: the dimension-mismatch
failure dictionary comes out of `store_article_embedding`
(pinecone_client.py lines 58-60) and `process_single_article` charges a
falsy persist result to the pinecone counter (main.py lines 87-90), not to
the embedding counter as the claim states. -/
theorem C2_counterexample :
    (process_single_article hashA 2 ⟨"u", true, true, some [0, 0, 0], true, metaA⟩
        1 initStats []).stats.embedding_failed = 0 ∧
    (process_single_article hashA 2 ⟨"u", true, true, some [0, 0, 0], true, metaA⟩
        1 initStats []).stats.pinecone_failed = 1 :=
  ⟨rfl, rfl⟩

/-- C2, amended: a document whose embedding vector's length differs from
the configured dimension (and whose identity is not already stored) is
recorded as a failure attributed to the Persist stage: `pinecone_failed`
is the counter incremented, `embedding_failed` is unchanged, the document
counts as failed, and no upsert is performed. -/
theorem C2_dim_mismatch_charged_to_persist (sha256hex : String → String)
    (dim : Nat) (env : DocEnv) (idx : Nat) (stats : Stats) (st : PineconeIndex)
    (emb : List Int) (hs : env.scrape_ok = true) (hm : env.summarize_ok = true)
    (he : env.embed_result = some emb) (hd : emb.length ≠ dim)
    (hx : check_article_exists st (create_unique_id sha256hex idx env.url) = false) :
    (process_single_article sha256hex dim env idx stats st).ok = false ∧
    (process_single_article sha256hex dim env idx stats st).stats.pinecone_failed
      = stats.pinecone_failed + 1 ∧
    (process_single_article sha256hex dim env idx stats st).stats.embedding_failed
      = stats.embedding_failed ∧
    (process_single_article sha256hex dim env idx stats st).stats.failed
      = stats.failed + 1 ∧
    (process_single_article sha256hex dim env idx stats st).upserts = 0 := by
  simp only [process_single_article, store_article_embedding, hs, hm, he, hx, hd,
    Bool.not_true, Bool.false_eq_true, if_false, if_true, ite_false, ite_true]
  simp [hd]

/-- C2 witness: the amended theorem applied to the concrete
dimension-mismatch scenario. -/
theorem C2_dim_mismatch_witness :
    (process_single_article hashA 2 ⟨"v", true, true, some [0, 0, 0], true, metaA⟩
        4 initStats []).ok = false ∧
    (process_single_article hashA 2 ⟨"v", true, true, some [0, 0, 0], true, metaA⟩
        4 initStats []).stats.pinecone_failed = initStats.pinecone_failed + 1 ∧
    (process_single_article hashA 2 ⟨"v", true, true, some [0, 0, 0], true, metaA⟩
        4 initStats []).stats.embedding_failed = initStats.embedding_failed ∧
    (process_single_article hashA 2 ⟨"v", true, true, some [0, 0, 0], true, metaA⟩
        4 initStats []).stats.failed = initStats.failed + 1 ∧
    (process_single_article hashA 2 ⟨"v", true, true, some [0, 0, 0], true, metaA⟩
        4 initStats []).upserts = 0 :=
  C2_dim_mismatch_charged_to_persist hashA 2 _ 4 initStats [] [0, 0, 0]
    rfl rfl rfl (by decide) rfl

/-- C5: the claim states that a transient stage failure is retried up to
maxAttempts before a terminal failure is surfaced, so failing transiently
then succeeding yields overall Success. The `@retry(stop_after_attempt(3))`
decorator on `scrape_single_article` retries only when the function
raises, but the function's own `except` clauses (scraper.py lines 108-115)
catch every exception and return a `success: False` dictionary, so no
invocation ever consumes more than one attempt: a world whose first two
attempts raise transiently and whose third would succeed still yields a
terminal scraping failure after exactly one attempt. -/
theorem C5_retry_never_fires :
    (∀ world : Nat → ScrapeAttempt, (scrape_single_article world).2 = 1) ∧
    scrape_single_article (fun i => if i < 2 then .transientError else .ok)
      = (.ok ⟨false, "exception caught"⟩, 1) := by
  constructor
  · intro world
    unfold scrape_single_article tenacityRetry
    cases world 0 <;> rfl
  · rfl

/-- C7: running the pipeline twice on the same (index, locator) with the
vector store persisted in between yields Success both times with exactly
one upsert — the first run inserts under the derived identity, the second
run's existence check finds it and short-circuits without touching the
store (pinecone_client.py lines 53-56, main.py lines 84-93). -/
theorem C7_pipeline_idempotent (sha256hex : String → String) (dim : Nat)
    (env : DocEnv) (idx : Nat) (stats1 stats2 : Stats) (st : PineconeIndex)
    (emb : List Int) (hs : env.scrape_ok = true) (hm : env.summarize_ok = true)
    (he : env.embed_result = some emb) (hlen : emb.length = dim)
    (hup : env.upsert_ok = true)
    (hx : check_article_exists st (create_unique_id sha256hex idx env.url) = false) :
    (process_single_article sha256hex dim env idx stats1 st).ok = true ∧
    (process_single_article sha256hex dim env idx stats1 st).upserts = 1 ∧
    (process_single_article sha256hex dim env idx stats2
        (process_single_article sha256hex dim env idx stats1 st).index).ok = true ∧
    (process_single_article sha256hex dim env idx stats2
        (process_single_article sha256hex dim env idx stats1 st).index).upserts = 0 ∧
    (process_single_article sha256hex dim env idx stats2
        (process_single_article sha256hex dim env idx stats1 st).index).index
      = (process_single_article sha256hex dim env idx stats1 st).index := by
  have h1 : process_single_article sha256hex dim env idx stats1 st =
      ⟨true, { stats1 with total_processed := stats1.total_processed + 1,
                           successful := stats1.successful + 1 },
       (create_unique_id sha256hex idx env.url, ⟨emb, env.metadata⟩) :: st, 1⟩ := by
    simp [process_single_article, store_article_embedding, hs, hm, he, hx, hlen, hup]
  have hx2 : check_article_exists
      ((create_unique_id sha256hex idx env.url, (⟨emb, env.metadata⟩ : VectorData)) :: st)
      (create_unique_id sha256hex idx env.url) = true := by
    simp [check_article_exists, fetchVector, List.find?]
  rw [h1]
  simp [process_single_article, store_article_embedding, hs, hm, he, hx2]

/-- C7 witness: the idempotence theorem applied to a concrete all-success
document against an initially empty store. -/
theorem C7_pipeline_idempotent_witness :
    (process_single_article hashA 2 (okDoc "u") 1 initStats []).ok = true ∧
    (process_single_article hashA 2 (okDoc "u") 1 initStats []).upserts = 1 ∧
    (process_single_article hashA 2 (okDoc "u") 1 initStats
        (process_single_article hashA 2 (okDoc "u") 1 initStats []).index).ok = true ∧
    (process_single_article hashA 2 (okDoc "u") 1 initStats
        (process_single_article hashA 2 (okDoc "u") 1 initStats []).index).upserts = 0 ∧
    (process_single_article hashA 2 (okDoc "u") 1 initStats
        (process_single_article hashA 2 (okDoc "u") 1 initStats []).index).index
      = (process_single_article hashA 2 (okDoc "u") 1 initStats []).index :=
  C7_pipeline_idempotent hashA 2 (okDoc "u") 1 initStats initStats [] [0, 0]
    rfl rfl rfl rfl rfl rfl

/-- C9: when fetching a search-results page raises, the enumeration
function returns the empty list (scraper.py lines 161-163), which is the
very value a genuinely empty page produces, so the driver's empty-page
test (main.py lines 158-160) terminates the run identically in both cases;
the function carries no retry wrapper, so the failed page is fetched only
once. `setList` is any function with Python set semantics. -/
theorem C9_search_error_looks_like_empty_page
    (setList : List String → List String) (e : String)
    (hmem : ∀ (x : String) (l : List String), x ∈ setList l ↔ x ∈ l) :
    get_article_links_from_search setList (.error e) = [] ∧
    get_article_links_from_search setList (.ok []) = [] ∧
    driverPageLinks setList (.error e) = driverPageLinks setList (.ok []) ∧
    driverPageLinks setList (.error e) = none := by
  have hnil : setList [] = [] := by
    apply List.eq_nil_iff_forall_not_mem.mpr
    intro x hx
    exact (List.not_mem_nil x) ((hmem x []).mp hx)
  refine ⟨rfl, ?_, ?_, rfl⟩
  · simp [get_article_links_from_search, hnil]
  · simp [driverPageLinks, get_article_links_from_search, hnil]

/-- C9 witness: the theorem applied with first-occurrence deduplication as
the set enumeration. -/
theorem C9_search_error_witness :
    get_article_links_from_search (fun l => l.dedup) (.error "net down") = [] ∧
    get_article_links_from_search (fun l => l.dedup) (.ok []) = [] ∧
    driverPageLinks (fun l => l.dedup) (.error "net down")
      = driverPageLinks (fun l => l.dedup) (.ok []) ∧
    driverPageLinks (fun l => l.dedup) (.error "net down") = none :=
  C9_search_error_looks_like_empty_page (fun l => l.dedup) "net down"
    (fun _ _ => List.mem_dedup)

/-- C10: `list(set(article_links))[:20]` (scraper.py line 158) returns a
duplicate-free subset of the page's links of length at most 20, so every
batch — and hence every per-page advance of the global index — is bounded
by 20; and set semantics do not preserve page order: there is a
set enumeration (duplicate-free, same membership) under which the output
differs from the page-order listing of a duplicate-free short page. -/
theorem C10_links_dedup_bounded (setList : List String → List String)
    (links : List String) (hnd : ∀ l, (setList l).Nodup)
    (hmem : ∀ (x : String) (l : List String), x ∈ setList l ↔ x ∈ l) :
    (get_article_links_from_search setList (.ok links)).length ≤ 20 ∧
    (get_article_links_from_search setList (.ok links)).Nodup ∧
    (∀ x ∈ get_article_links_from_search setList (.ok links), x ∈ links) ∧
    (∃ (setL2 : List String → List String) (links2 : List String),
      (∀ l, (setL2 l).Nodup) ∧
      (∀ (x : String) (l : List String), x ∈ setL2 l ↔ x ∈ l) ∧
      get_article_links_from_search setL2 (.ok links2) ≠ links2) := by
  refine ⟨?_, ?_, ?_, ?_⟩
  · simp only [get_article_links_from_search]
    exact List.length_take_le 20 (setList links)
  · exact (List.take_sublist 20 (setList links)).nodup (hnd links)
  · intro x hx
    exact (hmem x links).mp (List.mem_of_mem_take hx)
  · refine ⟨fun l => l.dedup.reverse, ["a", "b"], ?_, ?_, ?_⟩
    · intro l
      exact List.nodup_reverse.mpr (List.nodup_dedup l)
    · intro x l
      rw [List.mem_reverse, List.mem_dedup]
    · decide

/-- C10 witness: the theorem applied with first-occurrence deduplication
on a page carrying a duplicate link. -/
theorem C10_links_dedup_witness :
    (get_article_links_from_search (fun l => l.dedup) (.ok ["a", "a", "b"])).length ≤ 20 ∧
    (get_article_links_from_search (fun l => l.dedup) (.ok ["a", "a", "b"])).Nodup ∧
    (∀ x ∈ get_article_links_from_search (fun l => l.dedup) (.ok ["a", "a", "b"]),
      x ∈ ["a", "a", "b"]) ∧
    (∃ (setL2 : List String → List String) (links2 : List String),
      (∀ l, (setL2 l).Nodup) ∧
      (∀ (x : String) (l : List String), x ∈ setL2 l ↔ x ∈ l) ∧
      get_article_links_from_search setL2 (.ok links2) ≠ links2) :=
  C10_links_dedup_bounded (fun l => l.dedup) ["a", "a", "b"]
    (fun l => List.nodup_dedup l) (fun _ _ => List.mem_dedup)

/-- Loop-variable bookkeeping of the page loop: processing a list of pages
advances `page_num` by the number of pages and `article_global_index` by
the total number of documents. -/
theorem driverRun_page_idx (sha256hex : String → String) (dim : Nat)
    (pages : List (List DocEnv)) (s : DriverState) :
    (driverRun sha256hex dim pages s).page_num = s.page_num + pages.length ∧
    (driverRun sha256hex dim pages s).article_global_index
      = s.article_global_index + (pages.map List.length).sum := by
  induction pages generalizing s with
  | nil => simp [driverRun]
  | cons d rest ih =>
      have h := ih (driverProcessPage sha256hex dim d s)
      have hstep : driverRun sha256hex dim (d :: rest) s
          = driverRun sha256hex dim rest (driverProcessPage sha256hex dim d s) := rfl
      rw [hstep]
      rw [h.1, h.2]
      simp only [driverProcessPage, List.length_cons, List.map_cons, List.sum_cons]
      omega

/-- Checkpoint written by the page loop: after a non-empty list of pages,
the checkpoint file holds the last completed page's number together with
the advanced global index. -/
theorem driverRun_checkpoint (sha256hex : String → String) (dim : Nat)
    (pages : List (List DocEnv)) (s : DriverState) (h : pages ≠ []) :
    (driverRun sha256hex dim pages s).checkpoint
      = some (s.page_num + pages.length - 1,
              s.article_global_index + (pages.map List.length).sum) := by
  induction pages generalizing s with
  | nil => exact absurd rfl h
  | cons d rest ih =>
      by_cases hr : rest = []
      · subst hr
        simp [driverRun, driverProcessPage]
      · have hstep : driverRun sha256hex dim (d :: rest) s
            = driverRun sha256hex dim rest (driverProcessPage sha256hex dim d s) := by
          simp [driverRun]
        rw [hstep, ih _ hr]
        simp only [driverProcessPage, List.length_cons, List.map_cons, List.sum_cons,
          Option.some.injEq, Prod.mk.injEq]
        omega

/-- C3, counterexample: run one page containing the single locator "u"
from a fresh state. The document is processed at index 1 and stored under
`create_unique_id 1 "u"`; the checkpoint records `(page 1, next index 2)`.
A restarted run loads that checkpoint, re-fetches page 1 and enumerates
its documents starting at index 2 (main.py lines 96, 133-134), deriving
`create_unique_id 2 "u"` — a different identity — so the existence check
misses, the dedup gate does not short-circuit, and the store ends up with
two entries for the same locator, contradicting the claim's consequence
that re-fetched documents are short-circuited. -/
theorem C3_counterexample :
    create_unique_id hashA 1 "u" ≠ create_unique_id hashA 2 "u" ∧
    loadCheckpoint (driverRun hashA 2 [[okDoc "u"]]
        (startState none [] none)).checkpoint = (1, 2) ∧
    (driverRun hashA 2 [[okDoc "u"]]
      (startState
        (driverRun hashA 2 [[okDoc "u"]] (startState none [] none)).persisted
        (driverRun hashA 2 [[okDoc "u"]] (startState none [] none)).index
        (driverRun hashA 2 [[okDoc "u"]] (startState none [] none)).checkpoint)).index.length
      = 2 :=
  ⟨by decide, rfl, rfl⟩

/-- C3, amended: the identity deriver is a pure, deterministic, total
function — equal (index, locator) inputs always give equal identities,
across calls and restarts. On resumption, however, the checkpoint makes
the run restart at the very page number it last completed while the
global index has already advanced past that page's documents, so the
re-fetched page is enumerated from the checkpoint's next index; the dedup
gate short-circuits a document exactly when the identity derived from its
newly assigned index is already stored, not the identity the document had
in the original run. -/
theorem C3_amended_deterministic_but_resume_shifts_indices
    (sha256hex : String → String) (dim : Nat) :
    (∀ (i₁ i₂ : Nat) (u₁ u₂ : String), i₁ = i₂ → u₁ = u₂ →
      create_unique_id sha256hex i₁ u₁ = create_unique_id sha256hex i₂ u₂) ∧
    (∀ (docs : List DocEnv) (st0 : PineconeIndex) (p0 : Option Stats),
      loadCheckpoint (driverRun sha256hex dim [docs]
          (startState p0 st0 none)).checkpoint = (1, 1 + docs.length)) ∧
    (∀ (env : DocEnv) (idx : Nat) (stats : Stats) (st : PineconeIndex)
        (emb : List Int),
      env.scrape_ok = true → env.summarize_ok = true →
      env.embed_result = some emb →
      check_article_exists st (create_unique_id sha256hex idx env.url) = true →
      (process_single_article sha256hex dim env idx stats st).ok = true ∧
      (process_single_article sha256hex dim env idx stats st).upserts = 0 ∧
      (process_single_article sha256hex dim env idx stats st).index = st) := by
  refine ⟨?_, ?_, ?_⟩
  · intro i₁ i₂ u₁ u₂ hi hu
    rw [hi, hu]
  · intro docs st0 p0
    rw [driverRun_checkpoint sha256hex dim [docs] _ (by simp)]
    simp [startState, loadCheckpoint, Nat.add_comm]
  · intro env idx stats st emb hs hm he hx
    refine ⟨?_, ?_, ?_⟩ <;>
      simp [process_single_article, store_article_embedding, hs, hm, he, hx]

/-- C3 witness: the amended theorem's dedup conjunct at a concrete stored
identity — a document re-processed at its ORIGINAL index is
short-circuited (the gate works exactly on the derived identity). -/
theorem C3_amended_witness :
    (process_single_article hashA 2 (okDoc "u") 1 initStats
        [(create_unique_id hashA 1 "u", ⟨[0, 0], metaA⟩)]).ok = true ∧
    (process_single_article hashA 2 (okDoc "u") 1 initStats
        [(create_unique_id hashA 1 "u", ⟨[0, 0], metaA⟩)]).upserts = 0 ∧
    (process_single_article hashA 2 (okDoc "u") 1 initStats
        [(create_unique_id hashA 1 "u", ⟨[0, 0], metaA⟩)]).index
      = [(create_unique_id hashA 1 "u", ⟨[0, 0], metaA⟩)] :=
  (C3_amended_deterministic_but_resume_shifts_indices hashA 2).2.2
    (okDoc "u") 1 initStats [(create_unique_id hashA 1 "u", ⟨[0, 0], metaA⟩)]
    [0, 0] rfl rfl rfl (by decide)

/-- C4, counterexample: after page 1 (one document) completes, the loop
variables stand at `page_num = 2`, `article_global_index = 2` while page 2
is being fetched and processed. An interruption there runs
`save_checkpoint(page_num, article_global_index)` (main.py lines 184-191),
writing page number 2 — the page currently in flight and not fully
processed — whereas the claim requires the page number of the last
fully-processed page, 1 (as the in-loop write had recorded). -/
theorem C4_counterexample :
    interruptCheckpoint (driverRun hashA 2 [[okDoc "u1"]]
        (startState none [] none)) = (2, 2) ∧
    (driverRun hashA 2 [[okDoc "u1"]] (startState none [] none)).checkpoint
      = some (1, 2) ∧
    (2 : Nat) ≠ 1 :=
  ⟨rfl, rfl, by decide⟩

/-- C4, amended: after each completed page the checkpoint records that
page's number together with next index = 1 + total documents seen across
completed pages (the index never reflects a partially-processed page);
an interruption while the following page is in flight writes the same
index but the in-flight page's number — one past the last fully-processed
page — so the page-number field, unlike the index, can name a page that
was not fully processed. -/
theorem C4_amended_checkpoint (sha256hex : String → String) (dim : Nat)
    (pages : List (List DocEnv)) (st0 : PineconeIndex) (p0 : Option Stats)
    (h : pages ≠ []) :
    (driverRun sha256hex dim pages (startState p0 st0 none)).checkpoint
      = some (pages.length, 1 + (pages.map List.length).sum) ∧
    interruptCheckpoint (driverRun sha256hex dim pages (startState p0 st0 none))
      = (pages.length + 1, 1 + (pages.map List.length).sum) := by
  have hc := driverRun_checkpoint sha256hex dim pages (startState p0 st0 none) h
  have hp := driverRun_page_idx sha256hex dim pages (startState p0 st0 none)
  simp only [startState, loadCheckpoint] at hc hp ⊢
  obtain ⟨hp1, hp2⟩ := hp
  refine ⟨?_, ?_⟩
  · rw [hc]
    simp only [Option.some.injEq, Prod.mk.injEq]
    exact ⟨by omega, trivial⟩
  · simp only [interruptCheckpoint, hp1, hp2, Prod.mk.injEq]
    exact ⟨by omega, trivial⟩

/-- C4 witness: the amended theorem on a concrete one-page run. -/
theorem C4_amended_checkpoint_witness :
    (driverRun hashA 2 [[okDoc "u1"]] (startState none [] none)).checkpoint
      = some (1, 2) ∧
    interruptCheckpoint (driverRun hashA 2 [[okDoc "u1"]] (startState none [] none))
      = (2, 2) :=
  C4_amended_checkpoint hashA 2 [[okDoc "u1"]] [] none (by simp)

/-- Per-document accounting: one pipeline run preserves the balance
invariant, because `process_single_article` bumps `total_processed` once
and then exactly one of `successful` or a stage counter (the latter paired
with `failed`). -/
theorem process_single_article_balanced (sha256hex : String → String)
    (dim : Nat) (env : DocEnv) (idx : Nat) (stats : Stats) (st : PineconeIndex)
    (h : stats.balanced) :
    (process_single_article sha256hex dim env idx stats st).stats.balanced := by
  obtain ⟨h1, h2⟩ := h
  simp only [Stats.stageFailures] at h1 h2
  cases hs : env.scrape_ok with
  | false =>
      simp [process_single_article, hs, Stats.balanced, Stats.stageFailures]
      omega
  | true =>
      cases hm : env.summarize_ok with
      | false =>
          simp [process_single_article, hs, hm, Stats.balanced, Stats.stageFailures]
          omega
      | true =>
          cases he : env.embed_result with
          | none =>
              simp [process_single_article, hs, hm, he, Stats.balanced,
                Stats.stageFailures]
              omega
          | some emb =>
              cases hr : (store_article_embedding sha256hex dim st
                  ⟨emb, env.metadata⟩ idx env.url env.upsert_ok).result.success with
              | false =>
                  simp [process_single_article, hs, hm, he, hr, Stats.balanced,
                    Stats.stageFailures]
                  omega
              | true =>
                  simp [process_single_article, hs, hm, he, hr, Stats.balanced,
                    Stats.stageFailures]
                  omega

/-- Batch accounting: folding a page of documents through the pipeline
preserves the balance invariant. -/
theorem process_articles_batch_balanced (sha256hex : String → String)
    (dim : Nat) (docs : List DocEnv) (start_idx : Nat) (stats : Stats)
    (st : PineconeIndex) (h : stats.balanced) :
    (process_articles_batch sha256hex dim docs start_idx stats st).stats.balanced := by
  induction docs generalizing start_idx stats st with
  | nil => exact h
  | cons d rest ih =>
      simp only [process_articles_batch]
      exact ih _ _ _ (process_single_article_balanced sha256hex dim d start_idx stats st h)

/-- Pointwise addition of two balanced counter records is balanced. -/
theorem addStats_balanced (a b : Stats) (ha : a.balanced) (hb : b.balanced) :
    (addStats a b).balanced := by
  obtain ⟨a1, a2⟩ := ha
  obtain ⟨b1, b2⟩ := hb
  simp only [Stats.stageFailures] at a1 a2 b1 b2
  simp only [addStats, Stats.balanced, Stats.stageFailures]
  omega

/-- A flush of balanced deltas into a balanced (or absent) stats file
leaves a balanced file. -/
theorem update_stats_balanced (existing : Option Stats) (delta : Stats)
    (h1 : balancedFile existing) (h2 : delta.balanced) :
    (update_stats existing delta).balanced :=
  addStats_balanced _ _ h1 h2

/-- Driver invariant: starting from balanced in-process counters and a
balanced (or absent) stats file, every page iteration keeps both the
counters and the flushed file balanced. -/
theorem driverRun_balanced (sha256hex : String → String) (dim : Nat)
    (pages : List (List DocEnv)) (s : DriverState)
    (h1 : s.stats.balanced) (h2 : balancedFile s.persisted) :
    (driverRun sha256hex dim pages s).stats.balanced ∧
    balancedFile (driverRun sha256hex dim pages s).persisted := by
  induction pages generalizing s with
  | nil => exact ⟨h1, h2⟩
  | cons d rest ih =>
      have hb : (process_articles_batch sha256hex dim d s.article_global_index
          s.stats s.index).stats.balanced :=
        process_articles_batch_balanced sha256hex dim d _ _ _ h1
      have hstep : driverRun sha256hex dim (d :: rest) s
          = driverRun sha256hex dim rest (driverProcessPage sha256hex dim d s) := rfl
      rw [hstep]
      exact ih _ hb (update_stats_balanced s.persisted _ h2 hb)

/-- C6: after every stats flush the persisted counters satisfy
`successful + (scraping_failed + summarization_failed + embedding_failed +
pinecone_failed) = total_processed` with `failed` equal to the stage sum:
each processed document feeds exactly one success or stage-failure bucket
(main.py lines 57-93), flushes add balanced records pointwise
(utils.py lines 86-90), and the invariant also survives the run-end flush.
Quantifying over every page list covers the file state after every
intermediate flush (each prefix of a run is itself a run). -/
theorem C6_stats_file_balanced (sha256hex : String → String) (dim : Nat)
    (pages : List (List DocEnv)) (st0 : PineconeIndex)
    (cp : Option (Nat × Nat)) (p0 : Option Stats) (h0 : balancedFile p0) :
    balancedFile (driverRun sha256hex dim pages (startState p0 st0 cp)).persisted ∧
    (runEndFlush (driverRun sha256hex dim pages (startState p0 st0 cp))).balanced := by
  have hinit : (startState p0 st0 cp).stats.balanced := ⟨rfl, rfl⟩
  have h := driverRun_balanced sha256hex dim pages (startState p0 st0 cp) hinit h0
  exact ⟨h.2, update_stats_balanced _ _ h.2 h.1⟩

/-- C6 witness: the invariant theorem on a concrete two-page run with one
success and one scraping failure, starting from an absent stats file. -/
theorem C6_stats_file_balanced_witness :
    balancedFile (driverRun hashA 2
      [[okDoc "u1"], [⟨"u2", false, true, some [0, 0], true, metaA⟩]]
      (startState none [] none)).persisted ∧
    (runEndFlush (driverRun hashA 2
      [[okDoc "u1"], [⟨"u2", false, true, some [0, 0], true, metaA⟩]]
      (startState none [] none))).balanced :=
  C6_stats_file_balanced hashA 2
    [[okDoc "u1"], [⟨"u2", false, true, some [0, 0], true, metaA⟩]]
    [] none none ⟨rfl, rfl⟩

/-- Counting after a point update: setting position `i` (known to hold
`a`) to `b` moves one unit of count from `a`'s bucket to `b`'s. -/
theorem countP_set_add (p : TaskPhase → Bool) (l : List TaskPhase) (i : Nat)
    (a b : TaskPhase) (h : l.get? i = some a) :
    (l.set i b).countP p + (if p a then 1 else 0)
      = l.countP p + (if p b then 1 else 0) := by
  induction l generalizing i with
  | nil => simp at h
  | cons x xs ih =>
      cases i with
      | zero =>
          simp only [List.get?] at h
          injection h with h
          subst h
          simp only [List.set, List.countP_cons]
          omega
      | succ m =>
          simp only [List.get?] at h
          have hx := ih m h
          simp only [List.set, List.countP_cons]
          omega

/-- Acquiring: the holding count rises by one. -/
theorem countP_acquire_holding (l : List TaskPhase) (i : Nat)
    (h : l.get? i = some TaskPhase.pending) :
    (l.set i TaskPhase.holding).countP (fun y => y = TaskPhase.holding)
      = l.countP (fun y => y = TaskPhase.holding) + 1 := by
  have hx := countP_set_add (fun y => y = TaskPhase.holding) l i
    TaskPhase.pending TaskPhase.holding h
  simpa using hx

/-- Acquiring: the finished count is unchanged. -/
theorem countP_acquire_finished (l : List TaskPhase) (i : Nat)
    (h : l.get? i = some TaskPhase.pending) :
    (l.set i TaskPhase.holding).countP (fun y => y = TaskPhase.finished)
      = l.countP (fun y => y = TaskPhase.finished) := by
  have hx := countP_set_add (fun y => y = TaskPhase.finished) l i
    TaskPhase.pending TaskPhase.holding h
  simpa using hx

/-- Finishing: the holding count drops by one. -/
theorem countP_finish_holding (l : List TaskPhase) (i : Nat)
    (h : l.get? i = some TaskPhase.holding) :
    (l.set i TaskPhase.finished).countP (fun y => y = TaskPhase.holding) + 1
      = l.countP (fun y => y = TaskPhase.holding) := by
  have hx := countP_set_add (fun y => y = TaskPhase.holding) l i
    TaskPhase.holding TaskPhase.finished h
  simpa using hx

/-- Finishing: the finished count rises by one. -/
theorem countP_finish_finished (l : List TaskPhase) (i : Nat)
    (h : l.get? i = some TaskPhase.holding) :
    (l.set i TaskPhase.finished).countP (fun y => y = TaskPhase.finished)
      = l.countP (fun y => y = TaskPhase.finished) + 1 := by
  have hx := countP_set_add (fun y => y = TaskPhase.finished) l i
    TaskPhase.holding TaskPhase.finished h
  simpa using hx

/-- One scheduler step preserves the permit-accounting invariant. -/
theorem semStep_inv {C n : Nat} {s t : SemState} (hst : SemStep s t)
    (h : SemInv C n s) : SemInv C n t := by
  obtain ⟨hl, hc, hr⟩ := h
  cases hst with
  | acquire i hi hp =>
      have hhold := countP_acquire_holding s.tasks i hi
      have hfin := countP_acquire_finished s.tasks i hi
      refine ⟨by simpa using hl, ?_, ?_⟩
      · simp only [holdingCount] at hc hhold ⊢
        omega
      · simp only [finishedCount] at hr hfin ⊢
        omega
  | finish i k hi =>
      have hhold := countP_finish_holding s.tasks i hi
      have hfin := countP_finish_finished s.tasks i hi
      refine ⟨by simpa using hl, ?_, ?_⟩
      · simp only [holdingCount] at hc hhold ⊢
        omega
      · simp only [finishedCount] at hr hfin ⊢
        omega

/-- Every reachable scheduler state satisfies the permit-accounting
invariant. -/
theorem semReachable_inv (C n : Nat) (s : SemState)
    (h : SemReachable C n s) : SemInv C n s := by
  unfold SemReachable at h
  induction h with
  | refl =>
      refine ⟨by simp [initSem], ?_, ?_⟩
      · have hz : (List.replicate n TaskPhase.pending).countP
            (fun y => y = TaskPhase.holding) = 0 := by
          apply List.countP_eq_zero.mpr
          intro a ha
          simp [List.eq_of_mem_replicate ha]
        simp [initSem, holdingCount, hz]
      · have hz : (List.replicate n TaskPhase.pending).countP
            (fun y => y = TaskPhase.finished) = 0 := by
          apply List.countP_eq_zero.mpr
          intro a ha
          simp [List.eq_of_mem_replicate ha]
        simp [initSem, finishedCount, hz]
  | tail hab hbc ih => exact semStep_inv hbc ih

/-- C8: under the `asyncio.Semaphore(Config.CONCURRENCY_LIMIT)` that
`process_single_article` scopes its whole body in (`async with
self.semaphore`, main.py lines 32 and 58), every interleaving the event
loop can schedule keeps the number of document pipelines inside their
I/O-bound stages at or below the capacity `C`, regardless of the batch
size `n`; permits are conserved (held + free = C), every finished task has
released exactly once whatever its exit mode (success, failure, raised
error, or cancellation — the scope's release runs on each), and a pending
task can always acquire once the held count is below capacity, so no
pipeline is starved. -/
theorem C8_concurrency_bound (C n : Nat) (s : SemState)
    (h : SemReachable C n s) :
    holdingCount s ≤ C ∧
    holdingCount s + s.permits = C ∧
    s.releases = finishedCount s ∧
    ((∃ i, s.tasks.get? i = some TaskPhase.pending) →
      holdingCount s < C → 0 < s.permits) := by
  obtain ⟨hl, hc, hr⟩ := semReachable_inv C n s h
  exact ⟨by omega, hc, hr, fun _ hlt => by omega⟩

/-- C8 witness: the bound theorem at the state reached after one task of a
5-document batch acquires a permit under the default capacity 3. -/
theorem C8_concurrency_bound_witness :
    holdingCount ⟨Config.CONCURRENCY_LIMIT - 1,
        (List.replicate 5 TaskPhase.pending).set 0 TaskPhase.holding, 0⟩
      ≤ Config.CONCURRENCY_LIMIT ∧
    holdingCount ⟨Config.CONCURRENCY_LIMIT - 1,
        (List.replicate 5 TaskPhase.pending).set 0 TaskPhase.holding, 0⟩
      + (⟨Config.CONCURRENCY_LIMIT - 1,
          (List.replicate 5 TaskPhase.pending).set 0 TaskPhase.holding, 0⟩ : SemState).permits
      = Config.CONCURRENCY_LIMIT ∧
    (⟨Config.CONCURRENCY_LIMIT - 1,
        (List.replicate 5 TaskPhase.pending).set 0 TaskPhase.holding, 0⟩ : SemState).releases
      = finishedCount ⟨Config.CONCURRENCY_LIMIT - 1,
          (List.replicate 5 TaskPhase.pending).set 0 TaskPhase.holding, 0⟩ ∧
    ((∃ i, ((⟨Config.CONCURRENCY_LIMIT - 1,
          (List.replicate 5 TaskPhase.pending).set 0 TaskPhase.holding, 0⟩ : SemState)).tasks.get? i
        = some TaskPhase.pending) →
      holdingCount ⟨Config.CONCURRENCY_LIMIT - 1,
          (List.replicate 5 TaskPhase.pending).set 0 TaskPhase.holding, 0⟩
        < Config.CONCURRENCY_LIMIT →
      0 < (⟨Config.CONCURRENCY_LIMIT - 1,
          (List.replicate 5 TaskPhase.pending).set 0 TaskPhase.holding, 0⟩ : SemState).permits) :=
  C8_concurrency_bound Config.CONCURRENCY_LIMIT 5 _
    (Relation.ReflTransGen.single
      (SemStep.acquire (initSem Config.CONCURRENCY_LIMIT 5) 0 rfl (by decide)))

end Zenian
